import Mathlib

/-!
Verification of the xreact project-scaffolding CLI.

This file gives a shallow embedding of the repository's code:

* `src/postinstall.ts` (and the earlier revision of the same file): the
  install-time hook and its auto-run gating predicate;
* `src/index.ts`: the interactive app-name validator;
* `src/generator.ts`: the `generateProject` pipeline;
* `src/plugins/vite.ts`, the Tailwind plugin, `src/plugins/react-router.ts`,
  `src/plugins/eslint.ts`, `src/plugins/rtk-query.ts`: the setup stages,
  modelled as pure transformations of an explicit filesystem state;
* the stand-alone add-on entry point: `detectTypeScript`.

Node environment variables are modelled as `Option String` (a variable is
either unset or holds a string); the filesystem is a list of
(path, content) pairs with paths relative to the project directory; process
exit statuses are `Option Int` (`none` models a null status).  JavaScript
string operations used by the code (`String.prototype.includes`, first-match
`replace` with a literal pattern, `trim`) are modelled on `List Char`.
-/

namespace XReact

set_option maxRecDepth 10000

/-! ## Environment and the postinstall auto-run gate (`src/postinstall.ts`) -/

/-- The environment signals consulted by the postinstall hook.  Each
`process.env.*` variable is `none` when unset. -/
structure Env where
  ci : Option String
  xreactAutoRun : Option String
  stdinTTY : Bool
  stdoutTTY : Bool
  foregroundScripts : Option String
deriving DecidableEq

/-- JavaScript `Boolean(x)` on an environment variable: an unset variable and
the empty string are falsy, every other string is truthy. -/
def truthy : Option String → Bool
  | none => false
  | some s => !(s == "")

/-- Current revision (`src/postinstall.ts`, lines 42-45):
`process.env.XREACT_AUTO_RUN !== 'false' && !isCI && (isTTY || npmForeground)`
where `isCI = Boolean(process.env.CI)`,
`isTTY = Boolean(process.stdin.isTTY && process.stdout.isTTY)` and
`npmForeground = process.env.npm_config_foreground_scripts === 'true'`. -/
def shouldAutoRun (e : Env) : Bool :=
  !(e.xreactAutoRun == some "false") && !(truthy e.ci) &&
    ((e.stdinTTY && e.stdoutTTY) || (e.foregroundScripts == some "true"))

/-- Earlier revision of the hook (lines 41-43 of the old `postinstall.ts`):
`process.env.XREACT_AUTO_RUN !== 'false' && isTTY && !isCI` where
`isTTY = process.stdin.isTTY`; the npm foreground-scripts signal and
`stdout` are not consulted. -/
def shouldAutoRunLegacy (e : Env) : Bool :=
  !(e.xreactAutoRun == some "false") && e.stdinTTY && !(truthy e.ci)

/-- Observable log events of the postinstall hook, in emission order. -/
inductive LogMsg where
  | usageInstructions
  | launchGenerator
  | generatorWarning
  | skipAutoRun
  | postinstallWarning
deriving DecidableEq

/-- State relevant to a run of the postinstall hook: the environment, the
global-install flag, the exit status of the spawned generator
(`result.status`, `none` for a null status), and an optional error thrown
anywhere inside the `try` block. -/
structure PostEnv where
  env : Env
  globalInstall : Bool
  spawnStatus : Option Int
  failure : Option String
deriving DecidableEq

/-- Body of the `try` block of `postInstall` (`src/postinstall.ts`,
lines 18-71), returning the emitted log events or the thrown error.
For a local install it prints usage instructions, then either launches the
generator (warning when the subprocess status is not `0`, which includes a
null status since `result.status !== 0`) or prints the skip notice. -/
def postInstallTry (p : PostEnv) : Except String (List LogMsg) :=
  match p.failure with
  | some e => Except.error e
  | none =>
    if p.globalInstall then Except.ok []
    else
      Except.ok ([LogMsg.usageInstructions] ++
        (if shouldAutoRun p.env then
          [LogMsg.launchGenerator] ++
            (if p.spawnStatus == some 0 then [] else [LogMsg.generatorWarning])
        else [LogMsg.skipAutoRun]))

/-- The whole `postInstall` function including its `catch` (lines 72-75):
any error thrown inside the body is swallowed and replaced by a warning
log, so the function itself never propagates an error. -/
def postInstall (p : PostEnv) : Except String (List LogMsg) :=
  match postInstallTry p with
  | Except.ok logs => Except.ok logs
  | Except.error _ => Except.ok [LogMsg.postinstallWarning]

/-! ## The app-name validator (`src/index.ts`, lines 21-32) -/

/-- JavaScript `input.trim()`: strip leading and trailing whitespace. -/
def jsTrim (s : String) : String :=
  ⟨((s.data.dropWhile Char.isWhitespace).reverse.dropWhile Char.isWhitespace).reverse⟩

/-- Membership in the character class `[a-z0-9-]`. -/
def isAppNameChar (c : Char) : Bool :=
  ('a' ≤ c && c ≤ 'z') || ('0' ≤ c && c ≤ '9') || (c == '-')

/-- The test `/^[a-z0-9-]+$/.test(input)`: a non-empty string all of whose
characters lie in `[a-z0-9-]`. -/
def appNameRegexMatches (s : String) : Bool :=
  !(s.data.isEmpty) && s.data.all isAppNameChar

/-- Result of the inquirer `validate` callback: `true`, or an error
message shown to the user. -/
inductive ValidateResult where
  | ok
  | error (msg : String)
deriving DecidableEq

/-- The `validate` callback of the app-name prompt.  `dirExists` models
`fs.existsSync`.  `if (!input.trim())` rejects input whose trim is empty. -/
def validateAppName (dirExists : String → Bool) (input : String) : ValidateResult :=
  if jsTrim input == "" then ValidateResult.error "App name cannot be empty"
  else if !(appNameRegexMatches input) then
    ValidateResult.error "App name can only contain lowercase letters, numbers, and hyphens"
  else if dirExists input then
    ValidateResult.error "A directory with this name already exists"
  else ValidateResult.ok

/-! ## package.json scripts merges -/

/-- JavaScript object spread `\x7b ...old, ...upd \x7d` on the `scripts`
object, as an ordered association list: keys already in `old` keep their
position but take the value from `upd` when `upd` also has the key; keys
only in `upd` are appended. -/
def jsSpread (old upd : List (String × String)) : List (String × String) :=
  old.map (fun kv => match upd.lookup kv.1 with
    | some v => (kv.1, v)
    | none => kv) ++
  upd.filter (fun kv => (old.lookup kv.1).isNone)

/-- Script entries written by `updatePackageScripts`
(`src/plugins/vite.ts`, lines 71-77). -/
def viteScriptUpdates : List (String × String) :=
  [("dev", "vite"),
   ("build", "tsc && vite build"),
   ("preview", "vite preview"),
   ("lint", "eslint . --ext ts,tsx --report-unused-disable-directives --max-warnings 0")]

/-- Script entries written by `updatePackageScriptsForEslint`
(`src/plugins/eslint.ts`, lines 249-255). -/
def eslintScriptUpdates : List (String × String) :=
  [("lint", "eslint . --ext ts,tsx --report-unused-disable-directives --max-warnings 0"),
   ("lint:fix", "eslint . --ext ts,tsx --fix")]

/-! ## Filesystem model and the generation pipeline -/

/-- Content of a generated file: a plain text file, or `package.json`
modelled by its `scripts` object (the only field the pipeline mutates;
`readJson`/`writeJson` preserve every other field). -/
inductive FData where
  | text (s : String)
  | json (scripts : List (String × String))
deriving DecidableEq

/-- A filesystem: (path, content) pairs, paths relative to the project
directory. -/
abbrev FS := List (String × FData)

/-- Look up a file's content (`fs.readFile` / `fs.readJson`). -/
def readFile (p : String) : FS → Option FData
  | [] => none
  | e :: es => if e.1 == p then some e.2 else readFile p es

/-- A file is present in the tree (`fs.pathExists`). -/
def present (p : String) (fs : FS) : Bool :=
  (readFile p fs).isSome

/-- `fs.writeFile` / `fs.writeJson`: overwrite the file if present,
create it otherwise. -/
def writeFile (fs : FS) (p : String) (c : FData) : FS :=
  if present p fs then
    fs.map (fun e => if e.1 == p then (p, c) else e)
  else fs ++ [(p, c)]

/-- `fs.remove` guarded by `fs.pathExists`: drop the file if present. -/
def removeFile (fs : FS) (p : String) : FS :=
  fs.filter (fun e => !(e.1 == p))

/-- `viteConfigContent` of `configureVite` (`src/plugins/vite.ts`,
lines 42-56). -/
def viteConfigContent : String :=
  "import \x7b defineConfig \x7d from \x27vite\x27\nimport react from \x27@vitejs/plugin-react-swc\x27\n\nexport default defineConfig(\x7b\n  plugins: [react()],\n  server: \x7b\n    port: 3000,\n    open: true\n  \x7d,\n  build: \x7b\n    outDir: \x27dist\x27,\n    sourcemap: true\n  \x7d\n\x7d)\n"

/-- `configureVite`: write the Vite config file. -/
def configureViteFS (useTypeScript : Bool) (fs : FS) : FS :=
  writeFile fs (if useTypeScript then "vite.config.ts" else "vite.config.js")
    (FData.text viteConfigContent)

/-- `updatePackageScripts` (`src/plugins/vite.ts`, lines 66-81):
read `package.json`, spread the vite script entries into `scripts`, write it
back.  A missing or unreadable `package.json` makes `readJson` throw. -/
def updatePackageScriptsFS (fs : FS) : Except String FS :=
  match readFile "package.json" fs with
  | some (FData.json scripts) =>
    Except.ok (writeFile fs "package.json" (FData.json (jsSpread scripts viteScriptUpdates)))
  | _ => Except.error "ENOENT: package.json"

/-- Vite config written by `configureViteWithTailwind` (Tailwind plugin,
lines 211-221). -/
def tailwindViteConfigContent : String :=
  "import \x7b defineConfig \x7d from \x27vite\x27\nimport react from \x27@vitejs/plugin-react-swc\x27\nimport tailwindcss from \x27@tailwindcss/vite\x27\n\nexport default defineConfig(\x7b\n  plugins: [\n    react(),\n    tailwindcss(),\n  ],\n\x7d)\n"

/-- `addTailwindStyles`: content written over `src/index.css`. -/
def tailwindCssContent : String := "@import \"tailwindcss\";"

/-- `newAppContent` of the Tailwind stage's `updateAppComponent`
(Tailwind plugin, lines 247-266), as a function of the interpolated
app file name. -/
def tailwindAppContent (appFileName : String) : String :=
  "\nfunction App() \x7b\n  return (\n    <div className=\"min-h-screen bg-slate-900 flex flex-col items-center justify-center\">\n      <main className=\"text-center\">\n        <h1 className=\"text-6xl font-bold text-white\">\n          Welcome to your\n          <span className=\"text-transparent bg-clip-text bg-gradient-to-r from-sky-400 to-cyan-300\"> React </span>\n          App\n        </h1>\n        <p className=\"mt-4 text-xl text-slate-400\">\n          Get started by editing <code>src/" ++
  appFileName ++
  "</code>\n        </p>\n      </main>\n    </div>\n  )\n\x7d\n\nexport default App\n"

/-- `setupTailwind`: configure Vite, overwrite `src/index.css`, overwrite
the app entry file with Tailwind-styled markup, then remove `src/App.css`
if it exists. -/
def setupTailwindFS (useTypeScript : Bool) (fs : FS) : FS :=
  let fs1 := writeFile fs (if useTypeScript then "vite.config.ts" else "vite.config.js")
    (FData.text tailwindViteConfigContent)
  let fs2 := writeFile fs1 "src/index.css" (FData.text tailwindCssContent)
  let appFileName := if useTypeScript then "App.tsx" else "App.jsx"
  let fs3 := writeFile fs2 ("src/" ++ appFileName)
    (FData.text (tailwindAppContent appFileName))
  removeFile fs3 "src/App.css"

/-- `navIndexContent` (`src/plugins/react-router.ts`, lines 52-62). -/
def navIndexContent : String :=
  "import \x7b BrowserRouter \x7d from \x27react-router-dom\x27;\nimport \x7b RoutesSetup \x7d from \x27./routes\x27;\n\nexport const Router = () => \x7b\n  return (\n    <BrowserRouter>\n      <RoutesSetup />\n    </BrowserRouter>\n  );\n\x7d;\n"

/-- `routesContent` (`src/plugins/react-router.ts`, lines 66-81). -/
def routesContent : String :=
  "import \x7b Route, Routes \x7d from \x27react-router-dom\x27;\nimport \x7b Login \x7d from \x27../pages/login/Login\x27;\nimport \x7b Home \x7d from \x27../pages/home/Home\x27;\nimport \x7b MainLayout \x7d from \x27../components/layout/MainLayout\x27;\n\nexport const RoutesSetup = () => \x7b\n  return (\n    <Routes>\n        <Route path=\"/login\" element=\x7b<Login />\x7d />\n        <Route path=\"/\" element=\x7b<MainLayout />\x7d>\n            <Route index element=\x7b<Home/>\x7d />\n        </Route>\n    </Routes>\n  );\n\x7d;\n"

/-- `loginContent` (`src/plugins/react-router.ts`, lines 85-98). -/
def loginContent : String :=
  "export const Login = () => \x7b\n  return (\n    <div className=\"min-h-screen bg-slate-900 flex flex-col items-center justify-center\">\n      <main className=\"text-center\">\n        <h1 className=\"text-6xl font-bold text-white\">Login Page</h1>\n        <p className=\"mt-4 text-xl text-slate-400\">\n          This is the login page. Navigate to\x7b\x27 \x27\x7d\n          <a href=\"/\" className=\"text-sky-400 hover:underline\">Home</a>.\n        </p>\n      </main>\n    </div>\n  );\n\x7d;\n"

/-- `homeContent` (`src/plugins/react-router.ts`, lines 102-119), as a
function of the interpolated `fileExt`. -/
def homeContent (fileExt : String) : String :=
  "export const Home = () => \x7b\n  return (\n    <div className=\"text-center\">\n      <h1 className=\"text-6xl font-bold text-white\">\n        Welcome to your\n        <span className=\"text-transparent bg-clip-text bg-gradient-to-r from-sky-400 to-cyan-300\"> React </span>\n        App\n      </h1>\n      <p className=\"mt-4 text-xl text-slate-400\">\n        Get started by editing <code>src/pages/home/Home." ++
  fileExt ++
  "x</code>\n      </p>\n      <p className=\"mt-4 text-lg text-slate-400\">\n        Navigate to <a href=\"/login\" className=\"text-sky-400 hover:underline\">Login</a> page\n      </p>\n    </div>\n  );\n\x7d;\n"

/-- `mainLayoutContent` (`src/plugins/react-router.ts`, lines 123-134). -/
def mainLayoutContent : String :=
  "import \x7b Outlet \x7d from \x27react-router-dom\x27;\n\nexport const MainLayout = () => \x7b\n  return (\n    <div className=\"min-h-screen bg-slate-900 flex flex-col items-center justify-center\">\n      <main>\n        <Outlet />\n      </main>\n    </div>\n  );\n\x7d;\n"

/-- `appContent` written by the router stage (`src/plugins/react-router.ts`,
lines 140-147). -/
def routerAppContent : String :=
  "import \x7b Router \x7d from \x27./navigation\x27;\n\nfunction App() \x7b\n  return <Router />;\n\x7d\n\nexport default App;\n"

/-- `setupReactRouter` (`src/plugins/react-router.ts`, lines 31-157): write
the navigation, pages and layout files with the language-dependent
extensions, overwrite the app entry file with router wiring, then remove
`src/App.css` if it exists. -/
def setupReactRouterFS (useTypeScript : Bool) (fs : FS) : FS :=
  let fileExt := if useTypeScript then "ts" else "js"
  let jsxExt := if useTypeScript then "tsx" else "jsx"
  let fs1 := writeFile fs ("src/navigation/index." ++ jsxExt) (FData.text navIndexContent)
  let fs2 := writeFile fs1 ("src/navigation/routes." ++ jsxExt) (FData.text routesContent)
  let fs3 := writeFile fs2 ("src/pages/login/Login." ++ fileExt ++ "x") (FData.text loginContent)
  let fs4 := writeFile fs3 ("src/pages/home/Home." ++ fileExt ++ "x")
    (FData.text (homeContent fileExt))
  let fs5 := writeFile fs4 ("src/components/layout/MainLayout." ++ fileExt ++ "x")
    (FData.text mainLayoutContent)
  let appFileName := if useTypeScript then "App.tsx" else "App.jsx"
  let fs6 := writeFile fs5 ("src/" ++ appFileName) (FData.text routerAppContent)
  removeFile fs6 "src/App.css"

/-- User choices collected by the prompts (`src/generator.ts`, lines 35-39):
the interface has no field for React Router. -/
structure ProjectConfig where
  appName : String
  useTypeScript : Bool
  useTailwind : Bool
deriving DecidableEq

/-- `generateProject` (`src/generator.ts`, lines 51-72).  `base` is the tree
produced by the external `npm create vite` scaffold; `setupVite` then
configures Vite and updates the package scripts; the Tailwind stage runs only
when `useTailwind` is set; the React Router stage runs unconditionally. -/
def generateProject (base : FS) (config : ProjectConfig) : Except String FS :=
  match updatePackageScriptsFS (configureViteFS config.useTypeScript base) with
  | Except.error e => Except.error e
  | Except.ok fs2 =>
    Except.ok (setupReactRouterFS config.useTypeScript
      (if config.useTailwind then setupTailwindFS config.useTypeScript fs2 else fs2))

/-- `detectTypeScript` of the stand-alone add-on entry points: TypeScript is
used exactly when `tsconfig.json` is present in the working directory
(`accessSync` succeeds). -/
def detectTypeScript (tsconfigPresent : Bool) : Bool :=
  if tsconfigPresent then true else false

/-- `path.endsWith suffix` on the underlying characters, used to state
facts about generated file extensions. -/
def extIs (p suffix : String) : Bool :=
  suffix.data.isSuffixOf p.data

/-- A concrete tree standing for the output of the external
`npm create vite` scaffold (contents of the base files are irrelevant to
the claims; only `package.json` and the paths matter). -/
def viteBaseFS : FS :=
  [("package.json", FData.json [("dev", "vite"), ("build", "vite build"), ("preview", "vite preview")]),
   ("index.html", FData.text "<html></html>"),
   ("vite.config.ts", FData.text "export default \x7b\x7d"),
   ("src/main.tsx", FData.text "main"),
   ("src/App.tsx", FData.text "vite default app"),
   ("src/App.css", FData.text "vite default app css"),
   ("src/index.css", FData.text "vite default css")]

/-- The tree produced by `generateProject viteBaseFS` with TypeScript and
Tailwind selected, spelled out (used to instantiate theorems about
successful runs at a concrete input). -/
def demoFinalFS : FS :=
  [("package.json", FData.json
      [("dev", "vite"), ("build", "tsc && vite build"), ("preview", "vite preview"),
       ("lint", "eslint . --ext ts,tsx --report-unused-disable-directives --max-warnings 0")]),
   ("index.html", FData.text "<html></html>"),
   ("vite.config.ts", FData.text tailwindViteConfigContent),
   ("src/main.tsx", FData.text "main"),
   ("src/App.tsx", FData.text routerAppContent),
   ("src/index.css", FData.text tailwindCssContent),
   ("src/navigation/index.tsx", FData.text navIndexContent),
   ("src/navigation/routes.tsx", FData.text routesContent),
   ("src/pages/login/Login.tsx", FData.text loginContent),
   ("src/pages/home/Home.tsx", FData.text (homeContent "ts")),
   ("src/components/layout/MainLayout.tsx", FData.text mainLayoutContent)]

/-! ## JavaScript string operations and the RTK Query app-entry update
(`src/plugins/rtk-query.ts`, lines 266-294) -/

/-- `String.prototype.includes(pat)`: `pat` occurs as a contiguous
substring. -/
def strIncludes (pat : List Char) : List Char → Bool
  | [] => pat.isEmpty
  | c :: cs => pat.isPrefixOf (c :: cs) || strIncludes pat cs

/-- `s.replace(pat, repl)` with a literal (non-global) pattern: replace the
leftmost occurrence of `pat`, if any. -/
def replaceFirst (pat repl : List Char) : List Char → List Char
  | [] => if pat.isEmpty then repl else []
  | c :: cs =>
    if pat.isPrefixOf (c :: cs) then repl ++ (c :: cs).drop pat.length
    else c :: replaceFirst pat repl cs

/-- The `import \x7b Router \x7d from './navigation';` line matched by the
first `replace` of the RTK Query stage. -/
def routerImportLine : String := "import \x7b Router \x7d from \x27./navigation\x27;"

/-- The replacement inserted for the router import: the router import
followed by the StoreProvider import. -/
def routerAndStoreImportLines : String :=
  "import \x7b Router \x7d from \x27./navigation\x27;\nimport \x7b StoreProvider \x7d from \x27./store/StoreProvider\x27;"

/-- The `return <Router />;` statement matched by the second `replace`. -/
def returnRouterLine : String := "return <Router />;"

/-- The replacement wrapping the router in the store provider. -/
def wrappedReturnLines : String :=
  "return (\n    <StoreProvider>\n      <Router />\n    </StoreProvider>\n  );"

/-- First half of the RTK Query app update (lines 277-282): insert the
StoreProvider import after the router import, guarded by
`!updatedAppContent.includes('StoreProvider')`. -/
def addStoreProviderImport (l : List Char) : List Char :=
  if strIncludes "StoreProvider".data l then l
  else replaceFirst routerImportLine.data routerAndStoreImportLines.data l

/-- The full app-entry transformation of `setupRtkQuery` (lines 274-292):
the guarded import insertion followed by the unguarded wrapping of
`return <Router />;`. -/
def updateAppForRtk (s : String) : String :=
  ⟨replaceFirst returnRouterLine.data wrappedReturnLines.data
    (addStoreProviderImport s.data)⟩

/-! ## Theorems: the postinstall auto-run gate (C3, C4, C9) -/

/-- Claim C3, as stated, is false: an environment with an interactive TTY
on both streams and no CI flag, but with `XREACT_AUTO_RUN` set to the
string `false`, does not auto-run, although the claim requires every
interactive, CI-free environment to auto-run. -/
theorem autorun_gate_tty_no_ci_cex :
    (Env.mk none (some "false") true true none).stdinTTY = true ∧
    (Env.mk none (some "false") true true none).stdoutTTY = true ∧
    (Env.mk none (some "false") true true none).ci = none ∧
    shouldAutoRun (Env.mk none (some "false") true true none) = false := by
  decide

/-- Claim C3 (amended): with CI truthy, auto-run never triggers regardless
of TTY state; in a non-interactive, non-CI, non-foreground-scripts
environment auto-run does not trigger; and with an interactive TTY on both
streams, no truthy CI flag, and `XREACT_AUTO_RUN` not set to `false`,
auto-run triggers. -/
theorem autorun_gate_amended :
    (∀ e : Env, truthy e.ci = true → shouldAutoRun e = false) ∧
    (∀ e : Env, (e.stdinTTY && e.stdoutTTY) = false → truthy e.ci = false →
      e.foregroundScripts ≠ some "true" → shouldAutoRun e = false) ∧
    (∀ e : Env, e.stdinTTY = true → e.stdoutTTY = true → truthy e.ci = false →
      e.xreactAutoRun ≠ some "false" → shouldAutoRun e = true) := by
  refine ⟨fun e h => ?_, fun e h1 h2 h3 => ?_, fun e h1 h2 h3 h4 => ?_⟩
  · simp [shouldAutoRun, h]
  · simp [shouldAutoRun, h1, h2, beq_eq_false_iff_ne.mpr h3]
  · simp [shouldAutoRun, h1, h2, h3, beq_eq_false_iff_ne.mpr h4]

/-- Witness for the amended C3 gate at concrete environments. -/
theorem autorun_gate_amended_witness :
    shouldAutoRun (Env.mk (some "true") none true true none) = false ∧
    shouldAutoRun (Env.mk none none false false none) = false ∧
    shouldAutoRun (Env.mk none none true true none) = true := by
  refine ⟨?_, ?_, ?_⟩
  · exact autorun_gate_amended.1 (Env.mk (some "true") none true true none) (by decide)
  · exact autorun_gate_amended.2.1 (Env.mk none none false false none) (by decide) (by decide)
      (by decide)
  · exact autorun_gate_amended.2.2 (Env.mk none none true true none) rfl rfl (by decide)
      (by decide)

/-- Claim C4: the two revisions of the auto-run predicate differ
extensionally: with no TTY, no CI, `npm_config_foreground_scripts=true`
and `XREACT_AUTO_RUN` unset, the current revision auto-runs while the
legacy revision (which ignores the foreground-scripts signal) does not. -/
theorem autorun_revisions_diverge :
    shouldAutoRun (Env.mk none none false false (some "true")) = true ∧
    shouldAutoRunLegacy (Env.mk none none false false (some "true")) = false ∧
    shouldAutoRun ≠ shouldAutoRunLegacy := by
  refine ⟨by decide, by decide, fun h => ?_⟩
  exact absurd (congrFun h (Env.mk none none false false (some "true"))) (by decide)

/-- Claim C9: `postInstall` swallows every error thrown inside its body
(the result is always `ok`, so installation is never blocked), and a
non-zero (or null) exit status of the auto-launched generator only adds a
warning log while the hook still completes normally. -/
theorem postinstall_swallows_errors (p : PostEnv)
    (hglob : p.globalInstall = false) (hrun : shouldAutoRun p.env = true)
    (hstat : (p.spawnStatus == some 0) = false) :
    (∀ q : PostEnv, (postInstall q).isOk = true) ∧
    (p.failure = none →
      postInstall p = Except.ok
        [LogMsg.usageInstructions, LogMsg.launchGenerator, LogMsg.generatorWarning]) := by
  constructor
  · intro q
    cases h : postInstallTry q <;> simp [postInstall, h, Except.isOk, Except.toBool]
  · intro hfail
    unfold postInstall postInstallTry
    rw [hfail]
    simp [hglob, hrun, hstat]

/-- Witness for C9 at a concrete postinstall state (local install,
interactive TTY, generator exiting with status 1). -/
theorem postinstall_swallows_errors_witness :
    (∀ q : PostEnv, (postInstall q).isOk = true) ∧
    ((PostEnv.mk (Env.mk none none true true none) false (some 1) none).failure = none →
      postInstall (PostEnv.mk (Env.mk none none true true none) false (some 1) none) =
        Except.ok [LogMsg.usageInstructions, LogMsg.launchGenerator, LogMsg.generatorWarning]) :=
  postinstall_swallows_errors (PostEnv.mk (Env.mk none none true true none) false (some 1) none)
    (by decide) (by decide) (by decide)

/-! ## Theorems: the app-name validator (C6) -/

/-- Claim C6: the validator rejects empty and whitespace-only input,
rejects any name containing a character outside `[a-z0-9-]`, rejects any
name for which a directory of that name exists, and accepts `my-app-1`
when no such directory exists. -/
theorem app_name_validator_spec :
    (∀ dx : String → Bool, ∀ s : String, s.data.all Char.isWhitespace = true →
      validateAppName dx s = ValidateResult.error "App name cannot be empty") ∧
    (∀ dx : String → Bool, ∀ s : String, ∀ c : Char, c ∈ s.data → isAppNameChar c = false →
      validateAppName dx s ≠ ValidateResult.ok) ∧
    (∀ dx : String → Bool, ∀ s : String, dx s = true →
      validateAppName dx s ≠ ValidateResult.ok) ∧
    (∀ dx : String → Bool, dx "my-app-1" = false →
      validateAppName dx "my-app-1" = ValidateResult.ok) := by
  refine ⟨fun dx s h => ?_, fun dx s c hc hbad => ?_, fun dx s h => ?_, fun dx h => ?_⟩
  · have h1 : s.data.dropWhile Char.isWhitespace = [] :=
      List.dropWhile_eq_nil_iff.mpr (fun x hx => List.all_eq_true.mp h x hx)
    have h2 : jsTrim s = "" := by simp [jsTrim, h1]
    simp [validateAppName, h2]
  · unfold validateAppName
    split
    · simp
    · have hall : s.data.all isAppNameChar = false := by
        cases hall : s.data.all isAppNameChar
        · rfl
        · exact absurd (List.all_eq_true.mp hall c hc) (by simp [hbad])
      simp [appNameRegexMatches, hall]
  · unfold validateAppName
    split
    · simp
    · split
      · simp
      · simp [h]
  · have h1 : (jsTrim "my-app-1" == "") = false := by decide
    have h2 : (!(appNameRegexMatches "my-app-1")) = false := by decide
    simp [validateAppName, h1, h2, h]

/-- Witness for C6 at concrete inputs. -/
theorem app_name_validator_spec_witness :
    validateAppName (fun _ => false) " " = ValidateResult.error "App name cannot be empty" ∧
    validateAppName (fun _ => false) "My App" ≠ ValidateResult.ok ∧
    validateAppName (fun _ => true) "my-app-1" ≠ ValidateResult.ok ∧
    validateAppName (fun _ => false) "my-app-1" = ValidateResult.ok := by
  refine ⟨?_, ?_, ?_, ?_⟩
  · exact app_name_validator_spec.1 (fun _ => false) " " (by decide)
  · exact app_name_validator_spec.2.1 (fun _ => false) "My App" 'M' (by decide) (by decide)
  · exact app_name_validator_spec.2.2.1 (fun _ => true) "my-app-1" rfl
  · exact app_name_validator_spec.2.2.2 (fun _ => false) rfl

/-! ## Theorems: package.json scripts merges (C5) -/

/-- Looking up in an appended association list falls through to the right
part when the left has no entry. -/
theorem lookup_append (l₁ l₂ : List (String × String)) (k : String) :
    (l₁ ++ l₂).lookup k = ((l₁.lookup k).orElse (fun _ => l₂.lookup k)) := by
  induction l₁ with
  | nil => simp [List.lookup]
  | cons e es ih =>
    cases e with
    | mk a b =>
      cases h : k == a <;> simp [List.lookup, h, ih]

/-- Lookup in the spread's left part: existing keys keep their position
and take the update's value when it has one. -/
theorem lookup_map_override (upd old : List (String × String)) (k : String) :
    (old.map (fun kv => match upd.lookup kv.1 with
      | some v => (kv.1, v)
      | none => kv)).lookup k = (old.lookup k).map (fun b => (upd.lookup k).getD b) := by
  induction old with
  | nil => simp [List.lookup]
  | cons e es ih =>
    cases e with
    | mk a b =>
      by_cases hk : k = a
      · subst hk
        cases h : upd.lookup k <;> simp [List.lookup, h]
      · have hkb : (k == a) = false := beq_eq_false_iff_ne.mpr hk
        cases h : upd.lookup a <;> simp [List.lookup, h, hkb, ih]

/-- Lookup in the spread's right part: only keys absent from `old`
survive the filter. -/
theorem lookup_filter_new (upd old : List (String × String)) (k : String) :
    (upd.filter (fun kv => (old.lookup kv.1).isNone)).lookup k =
      if (old.lookup k).isNone then upd.lookup k else none := by
  induction upd with
  | nil => simp [List.lookup]
  | cons e es ih =>
    cases e with
    | mk a c =>
      by_cases hk : k = a
      · subst hk
        cases h : (old.lookup k).isNone
        · simp [List.filter_cons, h, ih]
        · simp [List.filter_cons, h, List.lookup]
      · have hkb : (k == a) = false := beq_eq_false_iff_ne.mpr hk
        cases h : (old.lookup a).isNone <;> simp [List.filter_cons, h, List.lookup, hkb, ih]

/-- The JavaScript spread merge has last-writer-wins lookup semantics:
a key maps to the update's value when present there, else to its old
value. -/
theorem lookup_jsSpread (old upd : List (String × String)) (k : String) :
    (jsSpread old upd).lookup k = ((upd.lookup k).orElse (fun _ => old.lookup k)) := by
  unfold jsSpread
  rw [lookup_append, lookup_map_override, lookup_filter_new]
  cases h1 : old.lookup k <;> cases h2 : upd.lookup k <;> simp [Option.orElse]

/-- Claim C5: each stage's package.json update is a read-merge-write of
`scripts`: for every prior scripts object, after the Vite stage and then
the ESLint stage, a key written only by the Vite stage keeps its Vite
value, a key written only by the ESLint stage has its ESLint value, the
key written by both ends with the later (ESLint) stage's value, and a key
written by neither stage is unchanged. -/
theorem package_scripts_read_merge_write (old : List (String × String)) (k : String)
    (h1 : viteScriptUpdates.lookup k = none) (h2 : eslintScriptUpdates.lookup k = none) :
    (jsSpread (jsSpread old viteScriptUpdates) eslintScriptUpdates).lookup "dev" =
      some "vite" ∧
    (jsSpread (jsSpread old viteScriptUpdates) eslintScriptUpdates).lookup "lint:fix" =
      some "eslint . --ext ts,tsx --fix" ∧
    (jsSpread (jsSpread old viteScriptUpdates) eslintScriptUpdates).lookup "lint" =
      some "eslint . --ext ts,tsx --report-unused-disable-directives --max-warnings 0" ∧
    (jsSpread (jsSpread old viteScriptUpdates) eslintScriptUpdates).lookup k =
      old.lookup k := by
  refine ⟨?_, ?_, ?_, ?_⟩ <;> rw [lookup_jsSpread, lookup_jsSpread]
  · simp [show eslintScriptUpdates.lookup "dev" = none from by decide,
      show viteScriptUpdates.lookup "dev" = some "vite" from by decide, Option.orElse]
  · simp [show eslintScriptUpdates.lookup "lint:fix" = some "eslint . --ext ts,tsx --fix"
      from by decide, Option.orElse]
  · simp [show eslintScriptUpdates.lookup "lint" =
      some "eslint . --ext ts,tsx --report-unused-disable-directives --max-warnings 0"
      from by decide, Option.orElse]
  · simp [h1, h2, Option.orElse]

/-- Witness for C5 with a concrete prior scripts object and the untouched
key `start`. -/
theorem package_scripts_read_merge_write_witness :
    (jsSpread (jsSpread [("start", "node server.js")] viteScriptUpdates)
      eslintScriptUpdates).lookup "dev" = some "vite" ∧
    (jsSpread (jsSpread [("start", "node server.js")] viteScriptUpdates)
      eslintScriptUpdates).lookup "lint:fix" = some "eslint . --ext ts,tsx --fix" ∧
    (jsSpread (jsSpread [("start", "node server.js")] viteScriptUpdates)
      eslintScriptUpdates).lookup "lint" =
      some "eslint . --ext ts,tsx --report-unused-disable-directives --max-warnings 0" ∧
    (jsSpread (jsSpread [("start", "node server.js")] viteScriptUpdates)
      eslintScriptUpdates).lookup "start" = [("start", "node server.js")].lookup "start" :=
  package_scripts_read_merge_write [("start", "node server.js")] "start"
    (by decide) (by decide)

/-! ## Theorems: filesystem primitives -/

/-- Boolean string equality is symmetric. -/
theorem string_beq_symm (a b : String) : (a == b) = (b == a) := by
  by_cases h : a = b
  · subst h; rfl
  · simp [beq_eq_false_iff_ne.mpr h, beq_eq_false_iff_ne.mpr (Ne.symm h)]

/-- Reading distributes over appended trees. -/
theorem readFile_append (fs₁ fs₂ : FS) (p : String) :
    readFile p (fs₁ ++ fs₂) = ((readFile p fs₁).orElse (fun _ => readFile p fs₂)) := by
  induction fs₁ with
  | nil => simp [readFile, Option.orElse]
  | cons e es ih =>
    cases hb : (e.1 == p) <;> simp [readFile, hb, ih, Option.orElse]

/-- Overwriting the entries keyed `q` yields `c` at `q`, provided `q` was
present. -/
theorem readFile_map_override_self (fs : FS) (q : String) (c : FData)
    (h : present q fs = true) :
    readFile q (fs.map (fun e => if e.1 == q then (q, c) else e)) = some c := by
  induction fs with
  | nil => simp [present, readFile] at h
  | cons e es ih =>
    cases hb : (e.1 == q) with
    | true => simp [readFile, hb]
    | false =>
      have h' : present q es = true := by simpa [present, readFile, hb] using h
      simpa [readFile, hb] using ih h'

/-- Overwriting the entries keyed `q` does not change lookups at `p ≠ q`. -/
theorem readFile_map_override_ne (fs : FS) (q p : String) (c : FData)
    (hb : (p == q) = false) :
    readFile p (fs.map (fun e => if e.1 == q then (q, c) else e)) = readFile p fs := by
  have hqp : (q == p) = false := by rw [string_beq_symm]; exact hb
  induction fs with
  | nil => rfl
  | cons e es ih =>
    cases hbq : (e.1 == q) with
    | true =>
      have h2 : (e.1 == p) = false := by rw [beq_iff_eq.mp hbq]; exact hqp
      simp [readFile, hbq, hqp, h2]
      simpa using ih
    | false =>
      cases hep : (e.1 == p) with
      | true => simp [readFile, hbq, hep]
      | false =>
        simp [readFile, hbq, hep]
        simpa using ih

/-- Reading after a write: the written path returns the new content, any
other path is unchanged. -/
theorem readFile_writeFile (fs : FS) (q p : String) (c : FData) :
    readFile p (writeFile fs q c) = if p == q then some c else readFile p fs := by
  unfold writeFile
  by_cases hw : present q fs
  · rw [if_pos hw]
    by_cases hpq : p = q
    · subst hpq
      rw [readFile_map_override_self fs p c hw]
      simp
    · have hb : (p == q) = false := beq_eq_false_iff_ne.mpr hpq
      rw [readFile_map_override_ne fs q p c hb]
      simp [hb]
  · rw [if_neg hw]
    rw [readFile_append]
    by_cases hpq : p = q
    · subst hpq
      have hnone : readFile p fs = none :=
        Option.not_isSome_iff_eq_none.mp (by simpa [present] using hw)
      simp [hnone, readFile, Option.orElse]
    · have hb : (p == q) = false := beq_eq_false_iff_ne.mpr hpq
      have hqp : (q == p) = false := by rw [string_beq_symm]; exact hb
      cases hr : readFile p fs <;> simp [hr, readFile, hb, hqp, Option.orElse]

/-- Reading after a remove: the removed path is gone, any other path is
unchanged. -/
theorem readFile_removeFile (fs : FS) (q p : String) :
    readFile p (removeFile fs q) = if p == q then none else readFile p fs := by
  induction fs with
  | nil => cases h : (p == q) <;> simp [removeFile, readFile, h]
  | cons e es ih =>
    cases h1 : (e.1 == q) with
    | true =>
      by_cases hpq : p = q
      · subst hpq
        simpa [removeFile, List.filter_cons, h1] using ih
      · have h2 : (e.1 == p) = false := by
          rw [beq_iff_eq.mp h1]; exact beq_eq_false_iff_ne.mpr (Ne.symm hpq)
        have h3 : (p == q) = false := beq_eq_false_iff_ne.mpr hpq
        simpa [removeFile, List.filter_cons, h1, readFile, h2, h3] using ih
    | false =>
      cases hep : (e.1 == p) with
      | true =>
        have hpq : p ≠ q := fun hh =>
          absurd (beq_iff_eq.mpr ((beq_iff_eq.mp hep).trans hh)) (by simp [h1])
        simp [removeFile, List.filter_cons, h1, readFile, hep,
          beq_eq_false_iff_ne.mpr hpq]
      | false =>
        simpa [removeFile, List.filter_cons, h1, readFile, hep] using ih

/-- Presence after a write. -/
theorem present_writeFile (fs : FS) (q p : String) (c : FData) :
    present p (writeFile fs q c) = if p == q then true else present p fs := by
  unfold present
  rw [readFile_writeFile]
  cases h : (p == q) <;> simp [h]

/-- Presence after a remove. -/
theorem present_removeFile (fs : FS) (q p : String) :
    present p (removeFile fs q) = if p == q then false else present p fs := by
  unfold present
  rw [readFile_removeFile]
  cases h : (p == q) <;> simp [h]

/-- The package-scripts stage changes no file other than `package.json`. -/
theorem updatePackageScripts_readFile_ne (fs fs' : FS) (p : String)
    (h : updatePackageScriptsFS fs = Except.ok fs')
    (hp : (p == "package.json") = false) :
    readFile p fs' = readFile p fs := by
  unfold updatePackageScriptsFS at h
  cases hr : readFile "package.json" fs with
  | none => rw [hr] at h; exact absurd h (by simp)
  | some d =>
    cases d with
    | text s => rw [hr] at h; exact absurd h (by simp)
    | json sc =>
      rw [hr] at h
      simp at h
      rw [← h, readFile_writeFile, hp]
      simp

/-- The package-scripts stage keeps every present file present. -/
theorem updatePackageScripts_present (fs fs' : FS) (p : String)
    (h : updatePackageScriptsFS fs = Except.ok fs')
    (hpres : present p fs = true) :
    present p fs' = true := by
  unfold updatePackageScriptsFS at h
  cases hr : readFile "package.json" fs with
  | none => rw [hr] at h; exact absurd h (by simp)
  | some d =>
    cases d with
    | text s => rw [hr] at h; exact absurd h (by simp)
    | json sc =>
      rw [hr] at h
      simp at h
      rw [← h, present_writeFile]
      cases hc : (p == "package.json") <;> simp [hpres]

/-! ## Theorems: the generation pipeline (C1, C2, C7, C8) -/

/-- Claim C1 concerns a full `generateProject` run with both Tailwind and
Router selected.  The code fails the claim: the router stage runs last and
unconditionally rewrites the app entry file, so the final `src/App.tsx` is
exactly the router template, which contains the router wrapper but no
`className` attribute at all — while the Tailwind stage's app markup (here
erased) consists of `className`-styled elements. -/
theorem app_entry_after_full_run_lacks_tailwind_markup :
    (generateProject viteBaseFS (ProjectConfig.mk "my-app" true true)).map
      (readFile "src/App.tsx") = Except.ok (some (FData.text routerAppContent)) ∧
    strIncludes "<Router />".data routerAppContent.data = true ∧
    strIncludes "className".data routerAppContent.data = false ∧
    strIncludes "className".data (tailwindAppContent "App.tsx").data = true := by
  refine ⟨rfl, by decide, by decide, by decide⟩

/-- Claim C2, as stated, is false: `ProjectConfig` has no Router flag and
the router stage runs unconditionally, so the run matching the spec's
end-to-end selection (TypeScript and Tailwind on, Router not selected)
still produces a populated `src/navigation` directory. -/
theorem generateProject_always_creates_navigation_cex :
    (generateProject viteBaseFS (ProjectConfig.mk "my-app" true true)).map
      (present "src/navigation/index.tsx") = Except.ok true := rfl

/-- Claim C2 (amended): `generateProject` runs the base scaffold, then the
Tailwind stage exactly when `useTailwind` is set, then the React Router
stage unconditionally (last); consequently every successful run populates
`src/navigation`, and the app entry file always ends as the router
template. -/
theorem generateProject_stage_order_amended (base : FS) (cfg : ProjectConfig) (fs' : FS)
    (h : generateProject base cfg = Except.ok fs') :
    present ("src/navigation/index." ++ (if cfg.useTypeScript then "tsx" else "jsx")) fs' =
      true ∧
    (cfg.useTailwind = true →
      readFile "src/index.css" fs' = some (FData.text tailwindCssContent)) ∧
    (cfg.useTailwind = false →
      readFile "src/index.css" fs' = readFile "src/index.css" base) ∧
    readFile ("src/" ++ (if cfg.useTypeScript then "App.tsx" else "App.jsx")) fs' =
      some (FData.text routerAppContent) := by
  unfold generateProject at h
  cases hu : updatePackageScriptsFS (configureViteFS cfg.useTypeScript base) with
  | error e => rw [hu] at h; exact absurd h (by simp)
  | ok fs2 =>
    rw [hu] at h
    simp at h
    subst h
    cases hts : cfg.useTypeScript <;> cases htw : cfg.useTailwind <;>
      refine ⟨by simp [setupReactRouterFS, setupTailwindFS, present_writeFile,
          present_removeFile],
        fun hw => ?_, fun hw => ?_,
        by simp [setupReactRouterFS, setupTailwindFS, readFile_writeFile,
          readFile_removeFile]⟩ <;>
      first
      | exact Bool.noConfusion hw
      | (simp [setupReactRouterFS, setupTailwindFS, readFile_writeFile, readFile_removeFile]
         try (rw [updatePackageScripts_readFile_ne _ _ _ hu (by decide)]
              simp [configureViteFS, hts, readFile_writeFile]))

/-- Witness for the amended C2 at a concrete base tree and configuration. -/
theorem generateProject_stage_order_amended_witness :
    present "src/navigation/index.tsx" demoFinalFS = true ∧
    (true = true → readFile "src/index.css" demoFinalFS = some (FData.text tailwindCssContent)) ∧
    (true = false → readFile "src/index.css" demoFinalFS = readFile "src/index.css" viteBaseFS) ∧
    readFile "src/App.tsx" demoFinalFS = some (FData.text routerAppContent) := by
  have h := generateProject_stage_order_amended viteBaseFS (ProjectConfig.mk "my-app" true true)
    demoFinalFS (by rfl)
  simpa using h

/-- Claim C7, as stated, is false: both the Tailwind stage and the Router
stage delete `src/App.css` when it exists. -/
theorem tailwind_stage_removes_app_css_cex :
    present "src/App.css" [("src/App.css", FData.text "vite default app css")] = true ∧
    present "src/App.css"
      (setupTailwindFS true [("src/App.css", FData.text "vite default app css")]) = false ∧
    present "src/App.css"
      (setupReactRouterFS true [("src/App.css", FData.text "vite default app css")]) = false := by
  decide

/-- Claim C7 (amended): the stages of the generation pipeline never delete
any file other than `src/App.css`: every file at a different path that is
present before a stage runs is still present (possibly overwritten)
afterwards.  `src/App.css` itself is removed by the Tailwind and Router
stages. -/
theorem stages_delete_only_app_css (useTS : Bool) (fs fs' : FS) (p : String)
    (hp : p ≠ "src/App.css") (hpres : present p fs = true) :
    present p (configureViteFS useTS fs) = true ∧
    (updatePackageScriptsFS fs = Except.ok fs' → present p fs' = true) ∧
    present p (setupTailwindFS useTS fs) = true ∧
    present p (setupReactRouterFS useTS fs) = true := by
  have hpb : (p == "src/App.css") = false := beq_eq_false_iff_ne.mpr hp
  refine ⟨?_, fun h => updatePackageScripts_present fs fs' p h hpres, ?_, ?_⟩ <;>
    cases useTS <;>
      simp [configureViteFS, setupTailwindFS, setupReactRouterFS,
        present_writeFile, present_removeFile, hpb, hpres]

/-- Witness for the amended C7 at a concrete tree and path. -/
theorem stages_delete_only_app_css_witness :
    present "src/main.tsx" (configureViteFS true [("src/main.tsx", FData.text "main")]) = true ∧
    (updatePackageScriptsFS [("src/main.tsx", FData.text "main")] = Except.ok [] →
      present "src/main.tsx" ([] : FS) = true) ∧
    present "src/main.tsx" (setupTailwindFS true [("src/main.tsx", FData.text "main")]) = true ∧
    present "src/main.tsx" (setupReactRouterFS true [("src/main.tsx", FData.text "main")]) =
      true :=
  stages_delete_only_app_css true [("src/main.tsx", FData.text "main")] [] "src/main.tsx"
    (by decide) (by decide)

/-- Claim C8: the router stage driven by `detectTypeScript` writes every
generated source file with a `.tsx`/`.ts` extension when `tsconfig.json`
is present, and with a `.jsx`/`.js` extension when it is absent. -/
theorem router_addon_extensions_follow_tsconfig :
    (setupReactRouterFS (detectTypeScript true) []).all
      (fun e => extIs e.1 ".tsx" || extIs e.1 ".ts") = true ∧
    (setupReactRouterFS (detectTypeScript false) []).all
      (fun e => extIs e.1 ".jsx" || extIs e.1 ".js") = true := by
  decide

/-! ## Theorems: the RTK Query app-entry update (C10) -/

/-- `strIncludes` decides substring occurrence. -/
theorem strIncludes_iff (pat s : List Char) : strIncludes pat s = true ↔ pat <:+: s := by
  induction s with
  | nil => simp [strIncludes]
  | cons c cs ih =>
    simp [strIncludes, List.infix_cons_iff, List.isPrefixOf_iff_prefix, ih]

/-- Replacing a pattern that does not occur is the identity. -/
theorem replaceFirst_of_not_includes (pat repl s : List Char)
    (h : strIncludes pat s = false) :
    replaceFirst pat repl s = s := by
  induction s with
  | nil =>
    simp [strIncludes] at h
    simp [replaceFirst, h]
  | cons c cs ih =>
    simp [strIncludes] at h
    simp [replaceFirst, h.1, ih h.2]

/-- Replacing a pattern that occurs splits the string around one
occurrence and substitutes the replacement there. -/
theorem replaceFirst_decomp (pat repl s : List Char) (h : strIncludes pat s = true) :
    ∃ a b, s = a ++ pat ++ b ∧ replaceFirst pat repl s = a ++ repl ++ b := by
  induction s with
  | nil =>
    simp [strIncludes] at h
    exact ⟨[], [], by simp [h], by simp [replaceFirst, h]⟩
  | cons c cs ih =>
    cases hp : pat.isPrefixOf (c :: cs) with
    | true =>
      obtain ⟨t, ht⟩ := List.isPrefixOf_iff_prefix.mp hp
      refine ⟨[], t, by simp [← ht], ?_⟩
      simp [replaceFirst, hp, ← ht, List.drop_left]
    | false =>
      have h' : strIncludes pat cs = true := by simpa [strIncludes, hp] using h
      obtain ⟨a, b, h1, h2⟩ := ih h'
      exact ⟨c :: a, b, by simp [h1], by simp [replaceFirst, hp, h2]⟩

/-- A substring of the replacement occurs in the replaced string. -/
theorem strIncludes_of_infix_replacement (sp a repl b : List Char)
    (h : sp <:+: repl) : strIncludes sp (a ++ repl ++ b) = true := by
  rw [strIncludes_iff]
  exact h.trans (List.infix_append a repl b)

/-- The guarded StoreProvider-import insertion is idempotent on every
input: a second application never inserts the import again.  Either the
input already mentions `StoreProvider` (then the step is the identity), or
the router import is absent (then `replace` is the identity), or the
inserted replacement itself contains `StoreProvider`, which trips the
guard on the second application. -/
theorem addStoreProviderImport_idem (l : List Char) :
    addStoreProviderImport (addStoreProviderImport l) = addStoreProviderImport l := by
  unfold addStoreProviderImport
  cases h : strIncludes "StoreProvider".data l with
  | true => simp [h]
  | false =>
    simp only [h, Bool.false_eq_true, if_false]
    cases hri : strIncludes routerImportLine.data l with
    | false =>
      rw [replaceFirst_of_not_includes _ _ _ hri, h,
        replaceFirst_of_not_includes _ _ _ hri]
      simp
    | true =>
      obtain ⟨a, b, _, h2⟩ :=
        replaceFirst_decomp routerImportLine.data routerAndStoreImportLines.data l hri
      rw [h2]
      have hsp :
          strIncludes "StoreProvider".data (a ++ routerAndStoreImportLines.data ++ b) =
            true :=
        strIncludes_of_infix_replacement _ _ _ _
          ((strIncludes_iff _ _).mp (by decide))
      rw [hsp]
      simp

/-- Claim C10: the RTK Query stage's app-entry transformation is
idempotent on the router stage's app-entry content, and the guarded
StoreProvider-import insertion inserts at most once: re-applying it to any
string changes nothing further. -/
theorem rtk_app_update_idempotent :
    updateAppForRtk (updateAppForRtk routerAppContent) = updateAppForRtk routerAppContent ∧
    ∀ l : List Char,
      addStoreProviderImport (addStoreProviderImport l) = addStoreProviderImport l :=
  ⟨by decide, addStoreProviderImport_idem⟩

end XReact
